import Mathlib

/-!
Verification of the Arctis Nova 7 wireless ChatMix daemon (`src/main.rs`)
against its natural-language specification.

The Rust program is shallowly embedded: each effectful loop becomes a pure
Lean function over an explicit trace of external outcomes (USB read results,
shell-command exit statuses, audio-server state), machine bytes become `Nat`,
and fallible operations return `Except String`.  External commands executed
by the program are recorded as `Action` values so that theorems can speak
about which audio-server calls a code path performs.
-/

namespace Arctis

/-- Hardware identity constants from the top of `main.rs`. -/
def VENDOR_ID : Nat := 0x1038

def PRODUCT_ID : Nat := 0x2202

/-- `HID_MSG_SIZE`: the fixed control/report size in bytes. -/
def HID_MSG_SIZE : Nat := 64

/-- An audio-server / shell call the program performs, recorded for reasoning.
Each constructor corresponds to one external command spawned by `main.rs`. -/
inductive Action where
  | listSinks                                  -- `pactl list short sinks`
  | destroySink (name : String)                -- `pw-cli destroy <name>`
  | createSink (name : String)                 -- `pw-cli create-node adapter {... node.name=<name> ...}`
  | linkCmd (src dst : String)                 -- `pw-link <src> <dst>`
  | setDefaultSink (name : String)             -- `pactl set-default-sink <name>`
  | setVolumeCall (sink : String) (pct : Nat)  -- `pactl set-sink-volume <sink> <pct>%`
  | moveInput (idx : Nat) (target : String)    -- `pactl move-sink-input <idx> <target>`
  deriving Repr, DecidableEq

/-- Is this action a virtual-sink creation (`pw-cli create-node`)? -/
def Action.isCreateSink : Action → Bool
  | .createSink _ => true
  | _ => false

/-! ## Report Reader (`read_loop`, main.rs lines 205-254) -/

/-- Outcome of one `handle.read_interrupt(endpoint, &mut buf, 1s)` call.
`ok buf` carries the `len` bytes actually read (`buf.length = len`). -/
inductive ReadOutcome where
  | ok (buf : List Nat)
  | timeout
  | noDevice
  | ioErr
  | otherErr
  deriving Repr, DecidableEq

/-- How `read_loop` terminates. -/
inductive ReadResult where
  | shutdown        -- `running` observed false: returns `Ok(())`
  | disconnected    -- `rusb::Error::NoDevice`: returns `Err("USB device disconnected (NoDevice)")`
  | tooManyErrors   -- counter reached `MAX_ERRORS`: returns `Err("Too many USB ... errors")`
  deriving Repr, DecidableEq

/-- A `set_sink_volume(sink, percent)` invocation. -/
structure VolEvent where
  sink : String
  percent : Nat
  deriving Repr, DecidableEq

/-- `MAX_ERRORS` from `read_loop`. -/
def MAX_ERRORS : Nat := 5

/-- The volume calls one read outcome triggers: a successful read of at least
3 bytes whose byte 0 is `0x45` sets the game volume to byte 1 and the chat
volume to byte 2; every other outcome triggers none (main.rs 212-221). -/
def stepEvents : ReadOutcome → List VolEvent
  | .ok buf =>
      if 3 ≤ buf.length ∧ buf.headD 0 = 0x45 then
        [⟨"Arctis_Game", buf.getD 1 0⟩, ⟨"Arctis_Chat", buf.getD 2 0⟩]
      else []
  | _ => []

/-- `read_loop` over a trace of read outcomes.  The trace lists the reads
performed while `running` stays true; exhausting it models `running`
becoming false at the next loop head (the Ctrl-C path, returning `Ok`).
The `Nat` argument is `consecutive_errors`.  Returns the `set_sink_volume`
events in order and the way the loop terminated. -/
def readLoop : List ReadOutcome → Nat → List VolEvent × ReadResult
  | [], _ => ([], .shutdown)
  | .ok buf :: rest, _ =>
      let r := readLoop rest 0
      (stepEvents (.ok buf) ++ r.1, r.2)
  | .timeout :: rest, _ => readLoop rest 0
  | .noDevice :: _, _ => ([], .disconnected)
  | .ioErr :: rest, errs =>
      if MAX_ERRORS ≤ errs + 1 then ([], .tooManyErrors) else readLoop rest (errs + 1)
  | .otherErr :: rest, errs =>
      if MAX_ERRORS ≤ errs + 1 then ([], .tooManyErrors) else readLoop rest (errs + 1)

/-- `readLoop` survives a trace without error exactly when `safeTrace` holds:
no device-removal outcome occurs and transient errors never bring the
consecutive-error counter up to `MAX_ERRORS`. -/
def safeTrace : List ReadOutcome → Nat → Bool
  | [], _ => true
  | .ok _ :: rest, _ => safeTrace rest 0
  | .timeout :: rest, _ => safeTrace rest 0
  | .noDevice :: _, _ => false
  | .ioErr :: rest, errs =>
      if MAX_ERRORS ≤ errs + 1 then false else safeTrace rest (errs + 1)
  | .otherErr :: rest, errs =>
      if MAX_ERRORS ≤ errs + 1 then false else safeTrace rest (errs + 1)

/-! ## Sidetone Writer (`hidapi_send_sidetone`, main.rs 495-532) -/

/-- The bucket mapping in `hidapi_send_sidetone`:
`<30 → 0, <60 → 1, <80 → 2, else 3`. -/
def sidetoneBucket (percent : Nat) : Nat :=
  if percent < 30 then 0x00
  else if percent < 60 then 0x01
  else if percent < 80 then 0x02
  else 0x03

/-- The 64-byte buffer written for a sidetone command:
`data = [0u8; 64]; data[0] = 0x00; data[1] = 0x39; data[2] = bucket`. -/
def sidetoneData (percent : Nat) : List Nat :=
  (((List.replicate HID_MSG_SIZE 0).set 0 0x00).set 1 0x39).set 2 (sidetoneBucket percent)

/-- `try_hidapi_sidetone_from_env` (main.rs 463-492), reduced to the percent
it passes to `hidapi_send_sidetone` (`none` = no write attempted).  Inputs
are the values of `ARCTIS_SIDETONE_DISABLE` and `ARCTIS_SIDETONE_PERCENT`
(`none` = variable unset). -/
def parseU8 (s : String) : Option Nat :=
  let t := if s.startsWith "+" then s.drop 1 else s
  match t.toNat? with
  | some n => if n ≤ 255 then some n else none
  | none => none

def sidetoneFromEnv (disableVar percentVar : Option String) : Option Nat :=
  match disableVar with
  | some v =>
      if v = "1" ∨ v = "yes" ∨ v = "true" ∨ v = "on" then some 0
      else some 100
  | none =>
      match percentVar with
      | none => none
      | some v =>
          match parseU8 v.trim with
          | some num => some (if num > 100 then 100 else num)
          | none => none

/-! ## Linking (`link_sink_to_device`, main.rs 391-413) -/

/-- Outcome of spawning one external command: the spawn itself may fail
(`spawnFail`), or the command runs and reports an exit status plus its
standard-error text. -/
inductive CmdOut where
  | spawnFail
  | ran (success : Bool) (stderr : String)
  deriving Repr, DecidableEq

/-- `pat` occurs as a substring of `s` (Rust `str::contains`). -/
def strContains (s pat : String) : Bool :=
  decide (pat.toList <:+: s.toList)

/-- How `link_sink_to_device` treats one `pw-link` invocation: spawn failure
is an error; a non-zero exit is forgiven exactly when stderr reports that the
link already exists (`"File exists"` or `"exists"`); otherwise it is an
error (main.rs 402-409). -/
def legResult : CmdOut → Except String Unit
  | .spawnFail => .error "Failed to execute pw-link"
  | .ran true _ => .ok ()
  | .ran false stderr =>
      if strContains stderr "File exists" || strContains stderr "exists" then .ok ()
      else .error ("pw-link failed: " ++ stderr)

/-- `link_sink_to_device(sink, dev)` given the outcomes of the FL and FR
`pw-link` commands.  The FL command runs first; on its failure the function
bails and the FR command is never spawned. -/
def link_sink_to_device (sink dev : String) (fl fr : CmdOut) :
    Except String Unit × List Action :=
  let aFL := Action.linkCmd (sink ++ ":monitor_FL") (dev ++ ":playback_FL")
  let aFR := Action.linkCmd (sink ++ ":monitor_FR") (dev ++ ":playback_FR")
  match legResult fl with
  | .error e => (.error e, [aFL])
  | .ok _ =>
      match legResult fr with
      | .error e => (.error e, [aFL, aFR])
      | .ok _ => (.ok (), [aFL, aFR])

/-- A model of the link table of the audio server, for idempotence statements:
`pw-link` on an existing link fails with a "File exists" diagnostic and
leaves the table unchanged; otherwise it adds the link and succeeds. -/
structure LinkWorld where
  links : List (String × String)
  deriving Repr, DecidableEq

/-- Backend semantics of one `pw-link src dst` call against `LinkWorld`. -/
def pwLink (w : LinkWorld) (src dst : String) : LinkWorld × CmdOut :=
  if (src, dst) ∈ w.links then (w, .ran false "failed to link ports: File exists")
  else (⟨(src, dst) :: w.links⟩, .ran true "")

/-- `link_sink_to_device` run against the `LinkWorld` backend. -/
def linkSinkToDeviceW (w : LinkWorld) (sink dev : String) :
    LinkWorld × Except String Unit :=
  let pFL := pwLink w (sink ++ ":monitor_FL") (dev ++ ":playback_FL")
  match legResult pFL.2 with
  | .error e => (pFL.1, .error e)
  | .ok _ =>
      let pFR := pwLink pFL.1 (sink ++ ":monitor_FR") (dev ++ ":playback_FR")
      match legResult pFR.2 with
      | .error e => (pFR.1, .error e)
      | .ok _ => (pFR.1, .ok ())

/-! ## Topology setup (`setup_virtual_sinks`, main.rs 45-111) -/

/-- Controller state relevant to topology: the `sinks_created` atomic flag. -/
structure CtrlState where
  sinksCreated : Bool
  deriving Repr, DecidableEq

/-- External outcomes consumed by one `setup_virtual_sinks` run.
`createGame`/`createChat`: `none` = spawn failed, `some b` = exit success
flag of the `pw-cli create-node` command.  `setDefault` likewise for
`pactl set-default-sink` (whose exit status the code does not check). -/
structure SetupEnv where
  findSink : Except String String
  createGame : Option Bool
  createChat : Option Bool
  gameFL : CmdOut
  gameFR : CmdOut
  chatFL : CmdOut
  chatFR : CmdOut
  setDefault : Option Bool

/-- `setup_virtual_sinks`: no-op when the flag is already set; otherwise
find the physical sink, destroy stale virtual sinks (results ignored),
create both virtual sinks (spawn failure or non-zero exit aborts), link
both to the physical sink (failure aborts), spawn `set-default-sink`
(only spawn failure aborts; a non-zero exit status is ignored), and only
then set the flag (main.rs 45-111). -/
def setup_virtual_sinks (st : CtrlState) (env : SetupEnv) :
    CtrlState × Except String Unit × List Action :=
  if st.sinksCreated then (st, .ok (), [])
  else
    match env.findSink with
    | .error e => (st, .error ("Arctis 7 device not found in audio system: " ++ e), [.listSinks])
    | .ok arctisSink =>
      let acts0 : List Action :=
        [.listSinks, .destroySink "Arctis_Game", .destroySink "Arctis_Chat"]
      match env.createGame with
      | none =>
          (st, .error "Failed to create Game sink", acts0 ++ [.createSink "Arctis_Game"])
      | some false =>
          (st, .error "Failed to create Arctis_Game sink", acts0 ++ [.createSink "Arctis_Game"])
      | some true =>
        let acts1 := acts0 ++ [Action.createSink "Arctis_Game", Action.createSink "Arctis_Chat"]
        match env.createChat with
        | none => (st, .error "Failed to create Chat sink", acts1)
        | some false => (st, .error "Failed to create Arctis_Chat sink", acts1)
        | some true =>
          let lg := link_sink_to_device "Arctis_Game" arctisSink env.gameFL env.gameFR
          match lg.1 with
          | .error e => (st, .error e, acts1 ++ lg.2)
          | .ok _ =>
            let lc := link_sink_to_device "Arctis_Chat" arctisSink env.chatFL env.chatFR
            match lc.1 with
            | .error e => (st, .error e, acts1 ++ lg.2 ++ lc.2)
            | .ok _ =>
              let acts2 := acts1 ++ lg.2 ++ lc.2 ++ [Action.setDefaultSink "Arctis_Game"]
              match env.setDefault with
              | none => (st, .error "Failed to set default sink", acts2)
              | some _ => (⟨true⟩, .ok (), acts2)

/-! ## Relink on reconnect (`relink_virtual_sinks_with_retry`, main.rs 257-302) -/

/-- What one attempt of `relink_virtual_sinks_with_retry` observes:
the shutdown flag went false, the physical sink was not found yet, or it
was found together with the outcomes of the four `pw-link` commands and
the `set-default-sink` command. -/
inductive RelinkStep where
  | cancelled
  | notFound
  | found (sink : String) (gameFL gameFR chatFL chatFR : CmdOut) (setDefault : Option Bool)

/-- `RETRIES` bound of `relink_virtual_sinks_with_retry`. -/
def RELINK_RETRIES : Nat := 10

/-- The retry loop of `relink_virtual_sinks_with_retry`: `attempt` is the
1-based attempt number, `remaining` how many of the `RETRIES` attempts are
left (`remaining = 0` is loop exit, yielding the final error).  Link
failures inside a `found` attempt are only warned about, never
propagated. -/
def relinkGo (steps : Nat → RelinkStep) (attempt : Nat) :
    Nat → Except String Unit × List Action
  | 0 => (.error "Failed to locate Arctis sink after retries", [])
  | remaining + 1 =>
    match steps attempt with
    | .cancelled => (.error "Shutdown in progress", [])
    | .notFound => relinkGo steps (attempt + 1) remaining
    | .found sink gFL gFR cFL cFR _sd =>
        let lg := link_sink_to_device "Arctis_Game" sink gFL gFR
        let lc := link_sink_to_device "Arctis_Chat" sink cFL cFR
        (.ok (), lg.2 ++ lc.2 ++ [Action.setDefaultSink "Arctis_Game"])

/-- `relink_virtual_sinks_with_retry`: `RETRIES = 10` attempts starting
at attempt 1. -/
def relinkWithRetry (steps : Nat → RelinkStep) : Except String Unit × List Action :=
  relinkGo steps 1 RELINK_RETRIES

/-! ## Connection supervisor (`try_connect_and_run` / `start`, main.rs 113-202) -/

/-- One iteration of the `while running` loop in `try_connect_and_run`:
either `usb_find_and_open` failed (sleep 2 s and retry), or it succeeded
and the session runs with the given relink attempts, movable sink-input
indices, and USB read trace. -/
inductive ConnectAttempt where
  | openFail
  | openOk (relinkSteps : Nat → RelinkStep) (inputs : List Nat) (readTrace : List ReadOutcome)

/-- `try_connect_and_run`: retries opening while the trace lasts (exhaustion
models `running` going false, returning `Ok`); on a successful open it
relinks (errors warned), moves all sink inputs to `Arctis_Game`, runs
`read_loop`, and returns its result.  The controller state is passed
through untouched: this function never reads or writes `sinks_created`. -/
def try_connect_and_run (st : CtrlState) :
    List ConnectAttempt → CtrlState × Except String Unit × List Action
  | [] => (st, .ok (), [])
  | .openFail :: rest => try_connect_and_run st rest
  | .openOk rl inputs rt :: _ =>
      let relinked := relinkWithRetry rl
      let moveActs := inputs.map (fun i => Action.moveInput i "Arctis_Game")
      let r := readLoop rt 0
      let volActs := r.1.map (fun e => Action.setVolumeCall e.sink e.percent)
      let res : Except String Unit :=
        match r.2 with
        | .shutdown => .ok ()
        | .disconnected => .error "USB device disconnected (NoDevice)"
        | .tooManyErrors => .error "Too many USB errors"
      (st, res, relinked.2 ++ moveActs ++ volActs)

/-- The second loop of `start` (main.rs 129-149): run connection sessions
until one ends gracefully (`Ok` breaks the loop) or `running` goes false
(trace exhaustion); an `Err` sleeps 3 s and retries. -/
def mainLoop (st : CtrlState) : List (List ConnectAttempt) → CtrlState × List Action
  | [] => (st, [])
  | t :: ts =>
      let r := try_connect_and_run st t
      match r.2.1 with
      | .ok _ => (r.1, r.2.2)
      | .error _ =>
          let r' := mainLoop r.1 ts
          (r'.1, r.2.2 ++ r'.2)

/-- The first loop of `start` (main.rs 114-127): retry `setup_virtual_sinks`
until it succeeds (sleeping 3 s between failures); trace exhaustion models
cancellation, on which `start` returns without entering the main loop.
The returned `Bool` is whether setup succeeded. -/
def setupPhase (st : CtrlState) : List SetupEnv → CtrlState × Bool × List Action
  | [] => (st, false, [])
  | env :: rest =>
      let r := setup_virtual_sinks st env
      match r.2.1 with
      | .ok _ => (r.1, true, r.2.2)
      | .error _ =>
          let r' := setupPhase r.1 rest
          (r'.1, r'.2.1, r.2.2 ++ r'.2.2)

/-! ## Device Locator (`usb_find_and_open`, main.rs 539-640) -/

/-- One USB endpoint descriptor, reduced to the fields the scan consults. -/
structure EndpointDesc where
  interrupt : Bool     -- transfer_type == Interrupt
  dirIn : Bool         -- direction == In
  address : Nat
  deriving Repr, DecidableEq

/-- One USB interface (first alternate-setting descriptor). -/
structure InterfaceDesc where
  classCode : Nat
  interfaceNumber : Nat
  endpoints : List EndpointDesc
  deriving Repr, DecidableEq

/-- Does this endpoint match the scan predicate (interrupt-type, IN)? -/
def epMatch (e : EndpointDesc) : Bool := e.interrupt && e.dirIn

/-- One step of the descriptor scan (main.rs 558-577): a HID-class
(code 3) interface whose first matching endpoint exists overwrites the
running `(target_interface_num, target_endpoint)` pair; the outer loop has
no break, so a later match wins. -/
def scanStep (st : Option Nat × Nat) (iface : InterfaceDesc) : Option Nat × Nat :=
  if iface.classCode = 3 then
    match iface.endpoints.find? epMatch with
    | some e => (some iface.interfaceNumber, e.address)
    | none => st
  else st

/-- The descriptor scan: `target_endpoint` starts at the hard-coded `0x84`
and `target_interface_num` at `None` (main.rs 555-556). -/
def scanInterfaces (ifaces : List InterfaceDesc) : Option Nat × Nat :=
  ifaces.foldl scanStep (none, 0x84)

/-- After the scan, `usb_find_and_open` unwraps the interface number or
fails with "Could not find HID interface" (main.rs 579-580); opening,
the sidetone write, and claiming all happen after this point. -/
def selectEndpoint (ifaces : List InterfaceDesc) : Except String (Nat × Nat) :=
  match scanInterfaces ifaces with
  | (none, _) => .error "Could not find HID interface"
  | (some i, ep) => .ok (i, ep)

/-- `CLAIM_RETRIES` from `usb_find_and_open`. -/
def CLAIM_RETRIES : Nat := 6

/-- The sleep performed after the `attempt`-th failed claim
(`200 * attempt` milliseconds, main.rs 633). -/
def claimSleepMs (attempt : Nat) : Nat := 200 * attempt

/-- The claim-retry loop (main.rs 598-637): `claimOk a` is whether
`claim_interface` succeeds on attempt `a` (1-based); `remaining` is how
many attempts are left, so `remaining = 1` is the last attempt
(`attempt == CLAIM_RETRIES`), which fails without sleeping.  Kernel-driver
detach outcomes do not affect control flow and are omitted.  Returns the
successful attempt number or the exhaustion error, plus the sleeps
performed. -/
def claimGo (claimOk : Nat → Bool) (attempt : Nat) : Nat → Except String Nat × List Nat
  | 0 => (.error "Failed to claim interface after 6 attempts", [])
  | 1 =>
      if claimOk attempt then (.ok attempt, [])
      else (.error "Failed to claim interface after 6 attempts", [])
  | remaining + 2 =>
      if claimOk attempt then (.ok attempt, [])
      else
        let r := claimGo claimOk (attempt + 1) (remaining + 1)
        (r.1, claimSleepMs attempt :: r.2)

/-- The full claim loop: `CLAIM_RETRIES = 6` attempts starting at attempt 1. -/
def claimLoop (claimOk : Nat → Bool) : Except String Nat × List Nat :=
  claimGo claimOk 1 CLAIM_RETRIES

/-- The post-scan pipeline of `usb_find_and_open`: select interface and
endpoint from the descriptors, then claim with retries; on success return
(interface number, endpoint address). -/
def usbSelectAndClaim (ifaces : List InterfaceDesc) (claimOk : Nat → Bool) :
    Except String (Nat × Nat) :=
  match selectEndpoint ifaces with
  | .error e => .error e
  | .ok (i, ep) =>
      match (claimLoop claimOk).1 with
      | .error e => .error e
      | .ok _ => .ok (i, ep)

/-! ## Concrete inputs used as test vectors -/

/-- A setup environment in which every step succeeds except that
`pactl set-default-sink` runs but exits non-zero. -/
def setupEnvBadDefault : SetupEnv where
  findSink := .ok "alsa_output.usb-SteelSeries_Arctis_Nova_7"
  createGame := some true
  createChat := some true
  gameFL := .ran true ""
  gameFR := .ran true ""
  chatFL := .ran true ""
  chatFR := .ran true ""
  setDefault := some false

/-- A relink attempt that finds the physical sink immediately, with all
link commands succeeding. -/
def relinkAllOk : Nat → RelinkStep := fun _ =>
  .found "alsa_output.usb-SteelSeries_Arctis_Nova_7"
    (.ran true "") (.ran true "") (.ran true "") (.ran true "") (some true)

/-- A device-removed session followed by a reconnection session: the first
open succeeds and the read loop ends with `NoDevice`; on retry the open
fails once, then succeeds and the loop runs until cancellation. -/
def reconnectScenario : List (List ConnectAttempt) :=
  [[.openOk relinkAllOk [3, 7] [.ok [0x45, 20, 80], .noDevice]],
   [.openFail, .openOk relinkAllOk [] [.timeout]]]

/-- A device whose only interface is not HID-class (class 5), though it does
expose an inbound interrupt endpoint. -/
def noHidIfaces : List InterfaceDesc := [⟨5, 0, [⟨true, true, 0x81⟩]⟩]

/-- No interface in the list is HID-class with an inbound interrupt
endpoint — i.e. the descriptor scan finds nothing. -/
def noHidMatch (ifaces : List InterfaceDesc) : Bool :=
  ifaces.all fun i => (i.classCode != 3) || (i.endpoints.find? epMatch).isNone

/-- The action list contains no virtual-sink creation. -/
def noCreateSinkActions (acts : List Action) : Bool :=
  acts.all fun a => !a.isCreateSink

/-! # Theorems -/

/-! ## Small helper lemmas -/

theorem getD_replicate_zero : ∀ (n j : Nat), (List.replicate n (0 : Nat)).getD j 0 = 0 := by
  intro n
  induction n with
  | zero => intro j; simp [List.getD]
  | succ n ih =>
      intro j
      cases j with
      | zero => simp [List.replicate_succ]
      | succ j => simp [List.replicate_succ, List.getD_cons_succ, ih]

/-- The sidetone buffer, written out: only byte 2 depends on the input. -/
theorem sidetoneData_eq (p : Nat) :
    sidetoneData p = 0x00 :: 0x39 :: sidetoneBucket p :: List.replicate 61 0 := rfl

/-! ## C1: volume forwarding -/

/-- C1: for every successful interrupt read of at least 3 bytes whose byte 0
is `0x45`, the reader invokes `set_sink_volume` on the game sink with exactly
`buf[1]` and on the chat sink with exactly `buf[2]`, unmodified; a successful
read of any other shape, and every non-successful outcome, causes no volume
call; and exactly these events reach the output of the read loop. -/
theorem c1_volume_forwarding :
    (∀ buf : List Nat, 3 ≤ buf.length → buf.headD 0 = 0x45 →
      stepEvents (.ok buf) =
        [⟨"Arctis_Game", buf.getD 1 0⟩, ⟨"Arctis_Chat", buf.getD 2 0⟩]) ∧
    (∀ buf : List Nat, ¬(3 ≤ buf.length ∧ buf.headD 0 = 0x45) →
      stepEvents (.ok buf) = []) ∧
    stepEvents .timeout = [] ∧ stepEvents .noDevice = [] ∧
    stepEvents .ioErr = [] ∧ stepEvents .otherErr = [] ∧
    (∀ (buf : List Nat) (rest : List ReadOutcome) (errs : Nat),
      (readLoop (.ok buf :: rest) errs).1 = stepEvents (.ok buf) ++ (readLoop rest 0).1) := by
  refine ⟨?_, ?_, rfl, rfl, rfl, rfl, ?_⟩
  · intro buf h1 h2
    show (if 3 ≤ buf.length ∧ buf.headD 0 = 0x45 then _ else _) = _
    rw [if_pos ⟨h1, h2⟩]
  · intro buf h
    show (if 3 ≤ buf.length ∧ buf.headD 0 = 0x45 then _ else _) = _
    rw [if_neg h]
  · intro buf rest errs; rfl

/-- C1 witness: the report `[0x45, 20, 80]` produces exactly the two volume
calls, and the malformed report `[0x45, 20]` produces none. -/
theorem c1_volume_forwarding_witness :
    (3 ≤ ([0x45, 20, 80] : List Nat).length ∧
      ([0x45, 20, 80] : List Nat).headD 0 = 0x45 ∧
      stepEvents (.ok [0x45, 20, 80]) = [⟨"Arctis_Game", 20⟩, ⟨"Arctis_Chat", 80⟩]) ∧
    (¬(3 ≤ ([0x45, 20] : List Nat).length ∧ ([0x45, 20] : List Nat).headD 0 = 0x45) ∧
      stepEvents (.ok [0x45, 20]) = []) :=
  ⟨⟨by decide, by decide, c1_volume_forwarding.1 [0x45, 20, 80] (by decide) (by decide)⟩,
   ⟨by decide, c1_volume_forwarding.2.1 [0x45, 20] (by decide)⟩⟩

/-! ## C3: error-counter reset -/

/-- C3: in every iteration, a successful read of any shape (including
zero-length or malformed) and a timeout continue the loop with the
consecutive-error counter reset to zero, whatever its previous value — so
only consecutive failures accumulate toward the ceiling. -/
theorem c3_counter_reset :
    (∀ (buf : List Nat) (rest : List ReadOutcome) (errs : Nat),
      readLoop (.ok buf :: rest) errs =
        (stepEvents (.ok buf) ++ (readLoop rest 0).1, (readLoop rest 0).2)) ∧
    (∀ (rest : List ReadOutcome) (errs : Nat),
      readLoop (.timeout :: rest) errs = readLoop rest 0) :=
  ⟨fun _ _ _ => rfl, fun _ _ => rfl⟩

/-- C3 witness: a zero-length read with the counter at 4 continues with the
counter reset to 0. -/
theorem c3_counter_reset_witness :
    readLoop [ReadOutcome.ok [], ReadOutcome.ioErr] 4 =
      (stepEvents (.ok []) ++ (readLoop [ReadOutcome.ioErr] 0).1,
        (readLoop [ReadOutcome.ioErr] 0).2) :=
  c3_counter_reset.1 [] [ReadOutcome.ioErr] 4

/-! ## C9: sidetone bucket mapping and report layout -/

/-- C9: the sidetone write maps percentage `p` to bucket 0 if `p < 30`,
1 if `30 ≤ p < 60`, 2 if `60 ≤ p < 80`, 3 if `p ≥ 80`; the bucket is
monotone in `p`; and the written buffer is 64 bytes with byte 0 = `0x00`,
byte 1 = `0x39`, byte 2 = the bucket, all remaining bytes zero. -/
theorem c9_sidetone_report :
    (∀ p, p < 30 → sidetoneBucket p = 0) ∧
    (∀ p, 30 ≤ p → p < 60 → sidetoneBucket p = 1) ∧
    (∀ p, 60 ≤ p → p < 80 → sidetoneBucket p = 2) ∧
    (∀ p, 80 ≤ p → sidetoneBucket p = 3) ∧
    (∀ p q, p ≤ q → sidetoneBucket p ≤ sidetoneBucket q) ∧
    (∀ p, (sidetoneData p).length = 64) ∧
    (∀ p, (sidetoneData p).getD 0 0 = 0x00) ∧
    (∀ p, (sidetoneData p).getD 1 0 = 0x39) ∧
    (∀ p, (sidetoneData p).getD 2 0 = sidetoneBucket p) ∧
    (∀ p i, 3 ≤ i → (sidetoneData p).getD i 0 = 0) := by
  refine ⟨?_, ?_, ?_, ?_, ?_, ?_, fun _ => rfl, fun _ => rfl, fun _ => rfl, ?_⟩
  · intro p h; unfold sidetoneBucket; rw [if_pos h]
  · intro p h1 h2; unfold sidetoneBucket; rw [if_neg (by omega), if_pos h2]
  · intro p h1 h2; unfold sidetoneBucket; rw [if_neg (by omega), if_neg (by omega), if_pos h2]
  · intro p h; unfold sidetoneBucket; rw [if_neg (by omega), if_neg (by omega), if_neg (by omega)]
  · intro p q hpq; unfold sidetoneBucket; split_ifs <;> omega
  · intro p; rw [sidetoneData_eq]; simp
  · intro p i h3
    obtain ⟨j, rfl⟩ : ∃ j, i = j + 3 := ⟨i - 3, by omega⟩
    rw [sidetoneData_eq]
    show (List.replicate 61 0).getD j 0 = 0
    exact getD_replicate_zero 61 j

/-- C9 witness: bucket values at 29, 30, 45, 79, 80 and the buffer layout
at percentage 45. -/
theorem c9_sidetone_report_witness :
    (29 < 30 ∧ sidetoneBucket 29 = 0) ∧
    (30 ≤ 45 ∧ 45 < 60 ∧ sidetoneBucket 45 = 1) ∧
    (60 ≤ 79 ∧ 79 < 80 ∧ sidetoneBucket 79 = 2) ∧
    (80 ≤ 80 ∧ sidetoneBucket 80 = 3) ∧
    (29 ≤ 80 ∧ sidetoneBucket 29 ≤ sidetoneBucket 80) ∧
    (sidetoneData 45).length = 64 ∧
    (3 ≤ 63 ∧ (sidetoneData 45).getD 63 0 = 0) :=
  ⟨⟨by decide, c9_sidetone_report.1 29 (by decide)⟩,
   ⟨by decide, by decide, c9_sidetone_report.2.1 45 (by decide) (by decide)⟩,
   ⟨by decide, by decide, c9_sidetone_report.2.2.1 79 (by decide) (by decide)⟩,
   ⟨by decide, c9_sidetone_report.2.2.2.1 80 (by decide)⟩,
   ⟨by decide, c9_sidetone_report.2.2.2.2.1 29 80 (by decide)⟩,
   c9_sidetone_report.2.2.2.2.2.1 45,
   ⟨by decide, c9_sidetone_report.2.2.2.2.2.2.2.2.2 45 63 (by decide)⟩⟩

/-! ## C10: sidetone environment variables -/

/-- C10: when `ARCTIS_SIDETONE_DISABLE` is set to any value,
`ARCTIS_SIDETONE_PERCENT` is ignored entirely; the values `"1"`, `"yes"`,
`"true"`, `"on"` produce a sidetone write of 0 (bucket 0) and every other
value produces a write of 100 (bucket 3). -/
theorem c10_sidetone_disable :
    (∀ (v : String) (pv : Option String),
      (v = "1" ∨ v = "yes" ∨ v = "true" ∨ v = "on") →
      sidetoneFromEnv (some v) pv = some 0) ∧
    (∀ (v : String) (pv : Option String),
      ¬(v = "1" ∨ v = "yes" ∨ v = "true" ∨ v = "on") →
      sidetoneFromEnv (some v) pv = some 100) ∧
    sidetoneBucket 0 = 0 ∧ sidetoneBucket 100 = 3 := by
  refine ⟨?_, ?_, rfl, rfl⟩
  · intro v pv h
    show (if v = "1" ∨ v = "yes" ∨ v = "true" ∨ v = "on" then _ else _) = _
    rw [if_pos h]
  · intro v pv h
    show (if v = "1" ∨ v = "yes" ∨ v = "true" ∨ v = "on" then _ else _) = _
    rw [if_neg h]

/-- C10 witness: `"yes"` yields a write of 0 and `"0"` yields a write of
100, in both cases ignoring a set `ARCTIS_SIDETONE_PERCENT`. -/
theorem c10_sidetone_disable_witness :
    (("yes" : String) = "1" ∨ ("yes" : String) = "yes" ∨ ("yes" : String) = "true" ∨
        ("yes" : String) = "on") ∧
    sidetoneFromEnv (some "yes") (some "40") = some 0 ∧
    ¬(("0" : String) = "1" ∨ ("0" : String) = "yes" ∨ ("0" : String) = "true" ∨
        ("0" : String) = "on") ∧
    sidetoneFromEnv (some "0") (some "40") = some 100 :=
  ⟨by decide, c10_sidetone_disable.1 "yes" (some "40") (by decide),
   by decide, c10_sidetone_disable.2.1 "0" (some "40") (by decide)⟩

/-! ## C2: read-loop termination and error ceiling -/

/-- The read loop survives to graceful shutdown exactly on safe traces. -/
theorem readLoop_shutdown_iff :
    ∀ (trace : List ReadOutcome) (errs : Nat),
      (readLoop trace errs).2 = .shutdown ↔ safeTrace trace errs = true := by
  intro trace
  induction trace with
  | nil => intro errs; simp [readLoop, safeTrace]
  | cons o rest ih =>
      intro errs
      cases o with
      | ok buf => simpa [readLoop, safeTrace] using ih 0
      | timeout => simpa [readLoop, safeTrace] using ih 0
      | noDevice => simp [readLoop, safeTrace]
      | ioErr =>
          by_cases h : MAX_ERRORS ≤ errs + 1
          · simp [readLoop, safeTrace, h]
          · simpa [readLoop, safeTrace, h] using ih (errs + 1)
      | otherErr =>
          by_cases h : MAX_ERRORS ≤ errs + 1
          · simp [readLoop, safeTrace, h]
          · simpa [readLoop, safeTrace, h] using ih (errs + 1)

/-- C2: the read loop returns an error exactly when a device-removed outcome
occurs (returning immediately, whatever the counter) or transient errors
reach 5 consecutive failures (`safeTrace` encodes exactly the absence of
both conditions); 5 consecutive I/O errors return the too-many-errors
error; a 6th error preceded by one successful read does not terminate the
loop; and a cleared cancellation flag (trace exhaustion) returns success. -/
theorem c2_error_ceiling :
    (∀ (rest : List ReadOutcome) (errs : Nat),
      readLoop (.noDevice :: rest) errs = ([], .disconnected)) ∧
    (∀ (trace : List ReadOutcome) (errs : Nat),
      (readLoop trace errs).2 = .shutdown ↔ safeTrace trace errs = true) ∧
    (readLoop (List.replicate 5 .ioErr) 0).2 = .tooManyErrors ∧
    (readLoop [.ioErr, .ioErr, .ioErr, .ioErr, .ok [], .ioErr] 0).2 = .shutdown ∧
    (∀ errs : Nat, readLoop [] errs = ([], .shutdown)) :=
  ⟨fun _ _ => rfl, readLoop_shutdown_iff, by decide, by decide, fun _ => rfl⟩

/-- C2 witness: a device-removed outcome terminates immediately even with
the counter at 4, and the safety characterisation evaluated on a concrete
one-error trace. -/
theorem c2_error_ceiling_witness :
    readLoop [ReadOutcome.noDevice] 4 = ([], .disconnected) ∧
    ((readLoop [ReadOutcome.ioErr] 0).2 = .shutdown ↔ safeTrace [ReadOutcome.ioErr] 0 = true) :=
  ⟨c2_error_ceiling.1 [] 4, c2_error_ceiling.2.1 [ReadOutcome.ioErr] 0⟩

/-! ## C5: idempotent linking -/

theorem legResult_ran_true (s : String) : legResult (.ran true s) = .ok () := rfl

theorem append_FR_ne_FL (s : String) : s ++ ":monitor_FR" ≠ s ++ ":monitor_FL" := by
  intro h
  have h2 : s.data ++ ":monitor_FR".data = s.data ++ ":monitor_FL".data := by
    simpa [String.data_append] using congrArg String.data h
  have h3 : (":monitor_FR".data : List Char) = ":monitor_FL".data := List.append_cancel_left h2
  exact absurd h3 (by decide)

theorem legResult_file_exists :
    legResult (.ran false "failed to link ports: File exists") = .ok () := rfl

/-- One `link_sink_to_device` run against the link-table backend always
succeeds, and afterwards both channel links are present. -/
theorem linkW_ok_mem (w : LinkWorld) (sink dev : String) :
    (linkSinkToDeviceW w sink dev).2 = .ok () ∧
    (sink ++ ":monitor_FL", dev ++ ":playback_FL") ∈ (linkSinkToDeviceW w sink dev).1.links ∧
    (sink ++ ":monitor_FR", dev ++ ":playback_FR") ∈ (linkSinkToDeviceW w sink dev).1.links := by
  by_cases h1 : (sink ++ ":monitor_FL", dev ++ ":playback_FL") ∈ w.links
  · by_cases h2 : (sink ++ ":monitor_FR", dev ++ ":playback_FR") ∈ w.links
    · simp [linkSinkToDeviceW, pwLink, h1, h2, legResult_file_exists]
    · simp [linkSinkToDeviceW, pwLink, h1, h2, legResult_file_exists, legResult_ran_true]
  · have hne : ¬(sink ++ ":monitor_FR" = sink ++ ":monitor_FL" ∧
        dev ++ ":playback_FR" = dev ++ ":playback_FL") := by
      rintro ⟨ha, _⟩; exact append_FR_ne_FL sink ha
    by_cases h2 : (sink ++ ":monitor_FR", dev ++ ":playback_FR") ∈ w.links
    · simp [linkSinkToDeviceW, pwLink, h1, h2, legResult_file_exists, legResult_ran_true]
    · simp [linkSinkToDeviceW, pwLink, h1, h2, hne, legResult_ran_true]

/-- When both channel links already exist, `link_sink_to_device` leaves the
backend untouched and still reports success: the two `pw-link` calls fail
with a "File exists" diagnostic, which is forgiven. -/
theorem linkW_stable (w : LinkWorld) (sink dev : String)
    (h1 : (sink ++ ":monitor_FL", dev ++ ":playback_FL") ∈ w.links)
    (h2 : (sink ++ ":monitor_FR", dev ++ ":playback_FR") ∈ w.links) :
    linkSinkToDeviceW w sink dev = (w, .ok ()) := by
  simp [linkSinkToDeviceW, pwLink, h1, h2, legResult_file_exists]

/-- C5: a leg whose backend command fails with an error output reporting the
link already exists is treated as success; consequently linking a virtual
sink to the same physical sink twice in a row produces no error on the
second call, which also leaves the backend link table unchanged. -/
theorem c5_link_idempotent :
    (∀ stderr : String, strContains stderr "exists" = true →
      legResult (.ran false stderr) = .ok ()) ∧
    (∀ (w : LinkWorld) (sink dev : String),
      (linkSinkToDeviceW w sink dev).2 = .ok () ∧
      linkSinkToDeviceW (linkSinkToDeviceW w sink dev).1 sink dev =
        ((linkSinkToDeviceW w sink dev).1, .ok ())) := by
  constructor
  · intro stderr h
    show (if strContains stderr "File exists" || strContains stderr "exists" then _ else _) = _
    rw [h]
    simp
  · intro w sink dev
    obtain ⟨hok, hFL, hFR⟩ := linkW_ok_mem w sink dev
    exact ⟨hok, linkW_stable _ sink dev hFL hFR⟩

/-- C5 witness: the real `pw-link` diagnostic text is forgiven, and linking
`Arctis_Game` twice to the same device starting from an empty link table
yields success both times with the table unchanged by the second call. -/
theorem c5_link_idempotent_witness :
    (strContains "failed to link ports: File exists" "exists" = true ∧
      legResult (.ran false "failed to link ports: File exists") = .ok ()) ∧
    ((linkSinkToDeviceW ⟨[]⟩ "Arctis_Game" "alsa_output.usb").2 = .ok () ∧
      linkSinkToDeviceW (linkSinkToDeviceW ⟨[]⟩ "Arctis_Game" "alsa_output.usb").1
          "Arctis_Game" "alsa_output.usb" =
        ((linkSinkToDeviceW ⟨[]⟩ "Arctis_Game" "alsa_output.usb").1, .ok ())) :=
  ⟨⟨by decide, c5_link_idempotent.1 "failed to link ports: File exists" (by decide)⟩,
   c5_link_idempotent.2 ⟨[]⟩ "Arctis_Game" "alsa_output.usb"⟩

/-! ## C6: topology-setup flag semantics -/

theorem link_ok_iff (s d : String) (fl fr : CmdOut) :
    (link_sink_to_device s d fl fr).1 = .ok () ↔
      legResult fl = .ok () ∧ legResult fr = .ok () := by
  cases hfl : legResult fl with
  | error e => simp [link_sink_to_device, hfl]
  | ok u =>
      cases u
      cases hfr : legResult fr with
      | error e => simp [link_sink_to_device, hfl, hfr]
      | ok u => cases u; simp [link_sink_to_device, hfl, hfr]

/-- C6 counterexample: starting with the flag false, an environment in which
every step succeeds except that `pactl set-default-sink` exits non-zero
still ends with the flag true and the call reporting success — the code
checks only that the command could be spawned, not its exit status, so the
flag is not "set true only after every setup step has succeeded". -/
theorem c6_counterexample :
    (setup_virtual_sinks ⟨false⟩ setupEnvBadDefault).1.sinksCreated = true ∧
    (setup_virtual_sinks ⟨false⟩ setupEnvBadDefault).2.1 = .ok () ∧
    setupEnvBadDefault.setDefault = some false :=
  ⟨rfl, rfl, rfl⟩

/-- C6 (amended): `setup_virtual_sinks` is a no-op — success, no
audio-server calls — when the flag is already true; sink-discovery failure
and either virtual-sink creation failure abort with an error and leave the
flag false; and the flag becomes true only when discovery, both creations,
and all four link legs succeeded and the set-default-sink command could be
spawned (its exit status is not checked). -/
theorem c6_flag_set_semantics :
    (∀ (st : CtrlState) (env : SetupEnv), st.sinksCreated = true →
      setup_virtual_sinks st env = (st, .ok (), [])) ∧
    (∀ (env : SetupEnv) (e : String), env.findSink = .error e →
      (setup_virtual_sinks ⟨false⟩ env).1.sinksCreated = false ∧
      (setup_virtual_sinks ⟨false⟩ env).2.1 =
        .error ("Arctis 7 device not found in audio system: " ++ e)) ∧
    (∀ env : SetupEnv, (env.createGame = none ∨ env.createGame = some false) →
      (setup_virtual_sinks ⟨false⟩ env).1.sinksCreated = false ∧
      ∃ e, (setup_virtual_sinks ⟨false⟩ env).2.1 = .error e) ∧
    (∀ env : SetupEnv, (env.createChat = none ∨ env.createChat = some false) →
      (setup_virtual_sinks ⟨false⟩ env).1.sinksCreated = false ∧
      ∃ e, (setup_virtual_sinks ⟨false⟩ env).2.1 = .error e) ∧
    (∀ env : SetupEnv, (setup_virtual_sinks ⟨false⟩ env).1.sinksCreated = true →
      (∃ s, env.findSink = .ok s) ∧ env.createGame = some true ∧ env.createChat = some true ∧
      legResult env.gameFL = .ok () ∧ legResult env.gameFR = .ok () ∧
      legResult env.chatFL = .ok () ∧ legResult env.chatFR = .ok () ∧
      env.setDefault ≠ none ∧ (setup_virtual_sinks ⟨false⟩ env).2.1 = .ok ()) := by
  refine ⟨?_, ?_, ?_, ?_, ?_⟩
  · intro st env h; simp [setup_virtual_sinks, h]
  · intro env e hf; simp [setup_virtual_sinks, hf]
  · intro env hg
    rcases hf : env.findSink with e | s
    · simp [setup_virtual_sinks, hf]
    · rcases hg with hg | hg <;> simp [setup_virtual_sinks, hf, hg]
  · intro env hc
    rcases hf : env.findSink with e | s
    · simp [setup_virtual_sinks, hf]
    · rcases hg : env.createGame with _ | b
      · simp [setup_virtual_sinks, hf, hg]
      · cases b
        · simp [setup_virtual_sinks, hf, hg]
        · rcases hc with hc | hc <;> simp [setup_virtual_sinks, hf, hg, hc]
  · intro env h
    rcases hf : env.findSink with e | s
    · simp [setup_virtual_sinks, hf] at h
    · rcases hg : env.createGame with _ | b
      · simp [setup_virtual_sinks, hf, hg] at h
      · cases b
        · simp [setup_virtual_sinks, hf, hg] at h
        · rcases hc : env.createChat with _ | b'
          · simp [setup_virtual_sinks, hf, hg, hc] at h
          · cases b'
            · simp [setup_virtual_sinks, hf, hg, hc] at h
            · rcases hlg : (link_sink_to_device "Arctis_Game" s env.gameFL env.gameFR).1
                with e | u
              · simp [setup_virtual_sinks, hf, hg, hc, hlg] at h
              · cases u
                rcases hlc : (link_sink_to_device "Arctis_Chat" s env.chatFL env.chatFR).1
                  with e | u
                · simp [setup_virtual_sinks, hf, hg, hc, hlg, hlc] at h
                · cases u
                  rcases hd : env.setDefault with _ | b''
                  · simp [setup_virtual_sinks, hf, hg, hc, hlg, hlc, hd] at h
                  · obtain ⟨h1, h2⟩ := (link_ok_iff _ _ _ _).mp hlg
                    obtain ⟨h3, h4⟩ := (link_ok_iff _ _ _ _).mp hlc
                    exact ⟨⟨s, rfl⟩, rfl, rfl, h1, h2, h3, h4, by simp,
                      by simp [setup_virtual_sinks, hf, hg, hc, hlg, hlc, hd]⟩

/-- C6 witness: with the flag already true, setup is a no-op even in an
environment whose set-default step would fail. -/
theorem c6_flag_set_semantics_witness :
    (⟨true⟩ : CtrlState).sinksCreated = true ∧
    setup_virtual_sinks ⟨true⟩ setupEnvBadDefault = (⟨true⟩, .ok (), []) :=
  ⟨rfl, c6_flag_set_semantics.1 ⟨true⟩ setupEnvBadDefault rfl⟩

/-! ## C7: interface-claim retry bound and backoff -/

/-- A successful claim happens on an attempt within the retry window. -/
theorem claimGo_ok_bound (rem : Nat) : ∀ (claimOk : Nat → Bool) (attempt a : Nat),
    (claimGo claimOk attempt rem).1 = .ok a → attempt ≤ a ∧ a < attempt + rem := by
  induction rem using Nat.strong_induction_on with
  | _ rem ih =>
    intro claimOk attempt a h
    rcases rem with _ | (_ | r)
    · simp [claimGo] at h
    · by_cases hc : claimOk attempt
      · simp [claimGo, hc] at h
        omega
      · simp [claimGo, hc] at h
    · by_cases hc : claimOk attempt
      · simp [claimGo, hc] at h
        omega
      · simp [claimGo, hc] at h
        have := ih (r + 1) (by omega) claimOk (attempt + 1) a h
        omega

/-- C7: interface claiming is retried at most `CLAIM_RETRIES = 6` times
(within the claimed 5–6); with every attempt failing, the loop performs the
five sleeps `200·k` ms (k = 1..5) and then returns the claim-failure error
instead of looping; the backoff is linear with a fixed 200 ms-per-attempt
increment (within the claimed 100–200 ms per attempt); and any success
happens on an attempt between 1 and 6. -/
theorem c7_claim_retry_bounded :
    (5 ≤ CLAIM_RETRIES ∧ CLAIM_RETRIES ≤ 6) ∧
    (claimLoop (fun _ => false)).1 = .error "Failed to claim interface after 6 attempts" ∧
    (claimLoop (fun _ => false)).2 =
      [claimSleepMs 1, claimSleepMs 2, claimSleepMs 3, claimSleepMs 4, claimSleepMs 5] ∧
    (∀ k, claimSleepMs (k + 1) = claimSleepMs k + 200) ∧
    (100 ≤ claimSleepMs 1 ∧ claimSleepMs 1 ≤ 200) ∧
    (∀ (claimOk : Nat → Bool) (a : Nat), (claimLoop claimOk).1 = .ok a →
      1 ≤ a ∧ a ≤ CLAIM_RETRIES) := by
  refine ⟨by decide, rfl, rfl, ?_, by decide, ?_⟩
  · intro k; unfold claimSleepMs; ring
  · intro claimOk a h
    unfold claimLoop at h
    have := claimGo_ok_bound CLAIM_RETRIES claimOk 1 a h
    revert this
    unfold CLAIM_RETRIES
    omega

/-- C7 witness: with claiming succeeding immediately, the loop reports
success on attempt 1, which lies within the bound. -/
theorem c7_claim_retry_bounded_witness :
    (claimLoop (fun _ => true)).1 = .ok 1 ∧ 1 ≤ 1 ∧ 1 ≤ CLAIM_RETRIES :=
  ⟨rfl, c7_claim_retry_bounded.2.2.2.2.2 (fun _ => true) 1 rfl⟩

/-! ## C8: no-HID-interface handling -/

theorem scanStep_no_match (st : Option Nat × Nat) (iface : InterfaceDesc)
    (h : iface.classCode = 3 → iface.endpoints.find? epMatch = none) :
    scanStep st iface = st := by
  unfold scanStep
  by_cases hc : iface.classCode = 3
  · rw [if_pos hc, h hc]
  · rw [if_neg hc]

theorem scan_foldl_no_match :
    ∀ (l : List InterfaceDesc) (st : Option Nat × Nat),
      (∀ i ∈ l, i.classCode = 3 → i.endpoints.find? epMatch = none) →
      List.foldl scanStep st l = st := by
  intro l
  induction l with
  | nil => intro st _; rfl
  | cons x l ih =>
      intro st h
      rw [List.foldl_cons, scanStep_no_match st x (h x (List.mem_cons_self x l))]
      exact ih st fun i hi => h i (List.mem_cons_of_mem x hi)

/-- Whatever the scan returns is either its initial value or the interface
number and endpoint address of an actual matching descriptor. -/
theorem scan_foldl_provenance :
    ∀ (l : List InterfaceDesc) (st : Option Nat × Nat),
      List.foldl scanStep st l = st ∨
      ∃ iface ∈ l, iface.classCode = 3 ∧
        ∃ e, iface.endpoints.find? epMatch = some e ∧
          List.foldl scanStep st l = (some iface.interfaceNumber, e.address) := by
  intro l
  induction l with
  | nil => intro st; left; rfl
  | cons x l ih =>
      intro st
      rcases ih (scanStep st x) with h | ⟨iface, hmem, hcls, e, hfind, heq⟩
      · by_cases hc : x.classCode = 3
        · cases hfx : x.endpoints.find? epMatch with
          | none =>
              left
              rw [List.foldl_cons, h]
              unfold scanStep
              rw [if_pos hc, hfx]
          | some e =>
              right
              refine ⟨x, List.mem_cons_self x l, hc, e, hfx, ?_⟩
              rw [List.foldl_cons, h]
              unfold scanStep
              rw [if_pos hc, hfx]
        · left
          rw [List.foldl_cons, h]
          unfold scanStep
          rw [if_neg hc]
      · right
        exact ⟨iface, List.mem_cons_of_mem x hmem, hcls, e, hfind,
          by rw [List.foldl_cons]; exact heq⟩

/-- `scan_foldl_provenance` specialised to the real initial state of the scan. -/
theorem scan_provenance (ifaces : List InterfaceDesc) :
    scanInterfaces ifaces = (none, 0x84) ∨
    ∃ iface ∈ ifaces, iface.classCode = 3 ∧
      ∃ e, iface.endpoints.find? epMatch = some e ∧
        scanInterfaces ifaces = (some iface.interfaceNumber, e.address) :=
  scan_foldl_provenance ifaces (none, 0x84)

theorem usbSelect_ok (ifaces : List InterfaceDesc) (claimOk : Nat → Bool) (i ep : Nat) :
    usbSelectAndClaim ifaces claimOk = .ok (i, ep) → selectEndpoint ifaces = .ok (i, ep) := by
  unfold usbSelectAndClaim
  cases hsel : selectEndpoint ifaces with
  | error e => simp
  | ok pr =>
      obtain ⟨i', ep'⟩ := pr
      cases hcl : (claimLoop claimOk).1 with
      | error e => simp
      | ok a => intro h; exact h

theorem selectEndpoint_ok (ifaces : List InterfaceDesc) (i ep : Nat) :
    selectEndpoint ifaces = .ok (i, ep) → scanInterfaces ifaces = (some i, ep) := by
  unfold selectEndpoint
  rcases hscan : scanInterfaces ifaces with ⟨fst, snd⟩
  cases fst with
  | none => simp
  | some j =>
      intro h
      simp only [Except.ok.injEq, Prod.mk.injEq] at h
      rw [h.1, h.2]

/-- C8 counterexample: for a device exposing no HID-class interface, the
scan indeed ends with the hard-coded fallback endpoint `0x84` and no
interface — but `usb_find_and_open` then fails with "Could not find HID
interface" (even with claiming guaranteed to succeed) instead of
proceeding to open and claim with the fallback address, refuting the
claim. -/
theorem c8_counterexample :
    scanInterfaces noHidIfaces = (none, 0x84) ∧
    usbSelectAndClaim noHidIfaces (fun _ => true) = .error "Could not find HID interface" :=
  ⟨rfl, rfl⟩

/-- C8 (amended): when the descriptor scan finds no HID-class interface
with an inbound interrupt endpoint, the locator returns the
"Could not find HID interface" error rather than proceeding with the
hard-coded default address; the `0x84` default is only the unused
initial value, since every successful open reports the interface number
and endpoint address of an actual matching descriptor. -/
theorem c8_fallback_unreachable :
    (∀ ifaces : List InterfaceDesc, noHidMatch ifaces = true →
      ∀ claimOk : Nat → Bool,
        usbSelectAndClaim ifaces claimOk = .error "Could not find HID interface") ∧
    (∀ (ifaces : List InterfaceDesc) (claimOk : Nat → Bool) (i ep : Nat),
      usbSelectAndClaim ifaces claimOk = .ok (i, ep) →
      ∃ iface ∈ ifaces, iface.classCode = 3 ∧ iface.interfaceNumber = i ∧
        ∃ e ∈ iface.endpoints, epMatch e = true ∧ e.address = ep) := by
  constructor
  · intro ifaces h claimOk
    have hall : ∀ i ∈ ifaces, i.classCode = 3 → i.endpoints.find? epMatch = none := by
      intro i hi hc
      have := (List.all_eq_true.mp h) i hi
      simp [hc] at this
      exact List.find?_eq_none.mpr fun x hx => by simp [this x hx]
    have hscan : scanInterfaces ifaces = (none, 0x84) :=
      scan_foldl_no_match ifaces (none, 0x84) hall
    unfold usbSelectAndClaim selectEndpoint
    rw [hscan]
  · intro ifaces claimOk i ep h
    have hsel := usbSelect_ok ifaces claimOk i ep h
    have hscan := selectEndpoint_ok ifaces i ep hsel
    rcases scan_provenance ifaces with hinit | ⟨iface, hmem, hcls, e, hfind, heq⟩
    · rw [hinit] at hscan
      simp at hscan
    · rw [heq] at hscan
      simp only [Prod.mk.injEq, Option.some.injEq] at hscan
      exact ⟨iface, hmem, hcls, hscan.1, e, List.mem_of_find?_eq_some hfind,
        List.find?_some hfind, hscan.2⟩

/-- C8 (amended) witness: for the concrete non-HID device the locator
fails with the no-HID-interface error. -/
theorem c8_fallback_unreachable_witness :
    noHidMatch noHidIfaces = true ∧
    usbSelectAndClaim noHidIfaces (fun _ => false) = .error "Could not find HID interface" :=
  ⟨by decide, c8_fallback_unreachable.1 noHidIfaces (by decide) (fun _ => false)⟩

/-! ## C4: topology-flag persistence across reconnects -/

theorem link_actions_no_create (s d : String) (fl fr : CmdOut) :
    ∀ a ∈ (link_sink_to_device s d fl fr).2, a.isCreateSink = false := by
  intro a ha
  cases hfl : legResult fl with
  | error e =>
      simp [link_sink_to_device, hfl] at ha
      subst ha; rfl
  | ok u =>
      cases u
      cases hfr : legResult fr with
      | error e =>
          simp [link_sink_to_device, hfl, hfr] at ha
          rcases ha with ha | ha <;> subst ha <;> rfl
      | ok u =>
          cases u
          simp [link_sink_to_device, hfl, hfr] at ha
          rcases ha with ha | ha <;> subst ha <;> rfl

theorem relinkGo_no_create (steps : Nat → RelinkStep) :
    ∀ (rem attempt : Nat), ∀ a ∈ (relinkGo steps attempt rem).2, a.isCreateSink = false := by
  intro rem
  induction rem with
  | zero => intro attempt a ha; simp [relinkGo] at ha
  | succ rem ih =>
      intro attempt a ha
      cases hs : steps attempt with
      | cancelled => simp only [relinkGo, hs] at ha; simp at ha
      | notFound =>
          simp only [relinkGo, hs] at ha
          exact ih (attempt + 1) a ha
      | found sink gFL gFR cFL cFR sd =>
          simp only [relinkGo, hs] at ha
          rw [List.mem_append, List.mem_append] at ha
          rcases ha with (ha | ha) | ha
          · exact link_actions_no_create _ _ _ _ a ha
          · exact link_actions_no_create _ _ _ _ a ha
          · simp at ha; subst ha; rfl

theorem try_connect_preserves (st : CtrlState) :
    ∀ t : List ConnectAttempt,
      (try_connect_and_run st t).1 = st ∧
      ∀ a ∈ (try_connect_and_run st t).2.2, a.isCreateSink = false := by
  intro t
  induction t with
  | nil => exact ⟨rfl, by simp [try_connect_and_run]⟩
  | cons x rest ih =>
      cases x with
      | openFail => simpa [try_connect_and_run] using ih
      | openOk rl inputs rt =>
          refine ⟨rfl, ?_⟩
          intro a ha
          simp only [try_connect_and_run] at ha
          rw [List.mem_append, List.mem_append] at ha
          rcases ha with (ha | ha) | ha
          · exact relinkGo_no_create rl RELINK_RETRIES 1 a ha
          · simp only [List.mem_map] at ha
            obtain ⟨i, _, rfl⟩ := ha
            rfl
          · simp only [List.mem_map] at ha
            obtain ⟨e, _, rfl⟩ := ha
            rfl

theorem mainLoop_preserves (st : CtrlState) (ts : List (List ConnectAttempt))
    (h : st.sinksCreated = true) :
    (mainLoop st ts).1.sinksCreated = true ∧
    ∀ a ∈ (mainLoop st ts).2, a.isCreateSink = false := by
  induction ts with
  | nil => exact ⟨h, by simp [mainLoop]⟩
  | cons t ts ih =>
      obtain ⟨hst, hacts⟩ := try_connect_preserves st t
      cases hres : (try_connect_and_run st t).2.1 with
      | ok u =>
          cases u
          constructor
          · show (mainLoop st (t :: ts)).1.sinksCreated = true
            simp only [mainLoop, hres]
            rw [hst]; exact h
          · intro a ha
            simp only [mainLoop, hres] at ha
            exact hacts a ha
      | error e =>
          constructor
          · simp only [mainLoop, hres]
            rw [hst]
            exact ih.1
          · intro a ha
            simp only [mainLoop, hres] at ha
            rw [hst] at ha
            rcases List.mem_append.mp ha with ha | ha
            · exact hacts a ha
            · exact ih.2 a ha

/-- Successful topology creation always leaves the flag true. -/
theorem setup_ok_flag (st : CtrlState) (env : SetupEnv)
    (h : (setup_virtual_sinks st env).2.1 = .ok ()) :
    (setup_virtual_sinks st env).1.sinksCreated = true := by
  obtain ⟨b⟩ := st
  cases b
  · rcases hf : env.findSink with e | s
    · simp [setup_virtual_sinks, hf] at h
    · rcases hg : env.createGame with _ | bg
      · simp [setup_virtual_sinks, hf, hg] at h
      · cases bg
        · simp [setup_virtual_sinks, hf, hg] at h
        · rcases hc : env.createChat with _ | bc
          · simp [setup_virtual_sinks, hf, hg, hc] at h
          · cases bc
            · simp [setup_virtual_sinks, hf, hg, hc] at h
            · rcases hlg : (link_sink_to_device "Arctis_Game" s env.gameFL env.gameFR).1
                with e | u
              · simp [setup_virtual_sinks, hf, hg, hc, hlg] at h
              · cases u
                rcases hlc : (link_sink_to_device "Arctis_Chat" s env.chatFL env.chatFR).1
                  with e | u
                · simp [setup_virtual_sinks, hf, hg, hc, hlg, hlc] at h
                · cases u
                  rcases hd : env.setDefault with _ | bd
                  · simp [setup_virtual_sinks, hf, hg, hc, hlg, hlc, hd] at h
                  · simp [setup_virtual_sinks, hf, hg, hc, hlg, hlc, hd]
  · simp [setup_virtual_sinks]

/-- C4: successful topology creation leaves the flag true, and the whole
disconnect/reconnect cycle — arbitrary sequences of failed opens,
relinks, stream migrations, read sessions, device losses and retries —
never changes the controller state (so the flag stays true) and never
performs a virtual-sink creation. -/
theorem c4_topology_flag_persists :
    (∀ (st : CtrlState) (env : SetupEnv),
      (setup_virtual_sinks st env).2.1 = .ok () →
      (setup_virtual_sinks st env).1.sinksCreated = true) ∧
    (∀ (st : CtrlState) (ts : List (List ConnectAttempt)), st.sinksCreated = true →
      (mainLoop st ts).1.sinksCreated = true ∧
      noCreateSinkActions (mainLoop st ts).2 = true) := by
  refine ⟨setup_ok_flag, ?_⟩
  intro st ts h
  obtain ⟨h1, h2⟩ := mainLoop_preserves st ts h
  refine ⟨h1, List.all_eq_true.mpr fun a ha => ?_⟩
  rw [h2 a ha]
  rfl

/-- C4 witness: a device-removed session followed by a reconnection keeps
the flag true and performs no topology recreation. -/
theorem c4_topology_flag_persists_witness :
    (⟨true⟩ : CtrlState).sinksCreated = true ∧
    (mainLoop ⟨true⟩ reconnectScenario).1.sinksCreated = true ∧
    noCreateSinkActions (mainLoop ⟨true⟩ reconnectScenario).2 = true :=
  ⟨rfl, (c4_topology_flag_persists.2 ⟨true⟩ reconnectScenario rfl).1,
   (c4_topology_flag_persists.2 ⟨true⟩ reconnectScenario rfl).2⟩

end Arctis
